import Mathlib

/-!
Shallow embedding of `rpy2/situation.py` (the R-environment resolution and
C-extension flag-extraction module) and proofs about it.

Python strings are modelled as Lean `String`; Python `None` for an optional
string as `Option String`; a Python exception escaping a function as
`Except.error` with the exception rendered as a string.  Child-process
invocations are abstracted by the `SubprocessResult` type recording what the
spawn attempt produced; everything downstream of the captured stdout is
translated line by line from the Python source.
-/

set_option linter.unusedVariables false
set_option maxRecDepth 20000

/-! ## Python string primitives (charwise, so that the kernel can evaluate them) -/

/-- Python `s.startswith(pre)`. -/
def pyStartsWith (s pre : String) : Bool :=
  pre.data.isPrefixOf s.data

/-- Python `s.endswith(suf)`. -/
def pyEndsWith (s suf : String) : Bool :=
  suf.data.isSuffixOf s.data

/-- Python whitespace characters recognised by `str.strip()` (ASCII range). -/
def pyIsSpace (c : Char) : Bool :=
  c == ' ' || c == '\t' || c == '\n' || c == '\r' ||
  c == Char.ofNat 11 || c == Char.ofNat 12

/-- Python `s.strip()`: remove leading and trailing whitespace. -/
def pyStrip (s : String) : String :=
  ⟨((s.data.dropWhile pyIsSpace).reverse.dropWhile pyIsSpace).reverse⟩

/-- Helper for `pySplit`: fuel-driven scan so the definition is structural and
kernel-evaluable.  The fuel is always instantiated to the length of the scanned
character list, which one extra unit per consumed character makes sufficient. -/
def pySplitAux (sep : List Char) : Nat → List Char → List Char → List (List Char)
  | _, [], cur => [cur.reverse]
  | 0, l, cur => [cur.reverse ++ l]
  | fuel + 1, c :: cs, cur =>
    if sep.isPrefixOf (c :: cs) then
      cur.reverse :: pySplitAux sep fuel (List.drop (sep.length - 1) cs) []
    else
      pySplitAux sep fuel cs (c :: cur)

/-- Python `s.split(sep)` for a non-empty separator `sep` (the only way the
source uses it, with `sep = os.linesep`): exact, non-overlapping, leftmost
splitting that keeps empty pieces.  Never returns an empty list. -/
def pySplit (s sep : String) : List String :=
  (pySplitAux sep.data s.data.length s.data []).map (fun l => String.mk l)

/-- Python `str.upper()` restricted to ASCII casing, which is all the source
compares against ("API"/"ABI"/"BOTH"). -/
def pyUpper (s : String) : String :=
  ⟨s.data.map Char.toUpper⟩

/-- Python `bytes.decode('ascii', 'ignore')`: drop every non-ASCII character. -/
def asciiIgnore (s : String) : String :=
  ⟨s.data.filter (fun c => c.toNat < 128)⟩

/-- Python truthiness of an optional string: `None` and `''` are falsy. -/
def pyTruthy : Option String → Bool
  | none => false
  | some s => !(s == "")

/-- Python `' '.join(lines)` specialised to a separator. -/
def pyJoinWith (sep : String) : List String → String
  | [] => ""
  | [x] => x
  | x :: xs => x ++ sep ++ pyJoinWith sep xs

/-- Python `posixpath.join(a, b)` for two components. -/
def osPathJoin (a b : String) : String :=
  if pyStartsWith b "/" then b
  else if a == "" || pyEndsWith a "/" then a ++ b
  else a ++ "/" ++ b

/-! ## Command Runner: `subprocess.check_output` -/

/-- Outcome of one attempt to run a child process: the spawn itself failed
(`FileNotFoundError` and kin), the process ran but exited non-zero
(`CalledProcessError`), or it succeeded with the given captured stdout. -/
inductive SubprocessResult where
  | launchFailure
  | nonZeroExit (code : Nat)
  | success (output : String)
deriving DecidableEq

/-- `subprocess.check_output`: returns captured stdout on success and raises
otherwise (`FileNotFoundError` on spawn failure, `CalledProcessError` on a
non-zero exit status). -/
def check_output : SubprocessResult → Except String String
  | .launchFailure => .error "FileNotFoundError"
  | .nonZeroExit c => .error ("CalledProcessError: exit status " ++ toString c)
  | .success out => .ok out

/-! ## The probes: `r_version_from_subprocess` and `r_home_from_subprocess`

Python source (situation.py): both wrap `check_output` in
`try: ... except Exception: return None`, split the output on `os.linesep`,
and return `lines[1]` when the first line starts with `'WARNING'` (note: no
`.strip()` in that branch) and `lines[0].strip()` otherwise.  `lines[1]` on a
one-element list raises `IndexError`, which is outside the `try` block and so
escapes.  The result type `Except String (Option String)` records an escaping
exception as `.error` and the Python return value as `.ok`. -/

/-- `r_version_from_subprocess()`: runs `("R", "--version")`, decodes stdout
with `ascii`/`ignore`, and extracts the version line. -/
def r_version_from_subprocess (res : SubprocessResult) (linesep : String) :
    Except String (Option String) :=
  match check_output res with
  | .error _ => .ok none
  | .ok tmp =>
    match pySplit (asciiIgnore tmp) linesep with
    | [] => .error "IndexError"
    | first :: rest =>
      if pyStartsWith first "WARNING" then
        match rest with
        | [] => .error "IndexError: list index out of range"
        | second :: _ => .ok (some second)
      else
        .ok (some (pyStrip first))

/-- `r_home_from_subprocess()`: runs `('R', 'RHOME')` with
`universal_newlines=True` and extracts the home line. -/
def r_home_from_subprocess (res : SubprocessResult) (linesep : String) :
    Except String (Option String) :=
  match check_output res with
  | .error _ => .ok none
  | .ok tmp =>
    match pySplit tmp linesep with
    | [] => .error "IndexError"
    | first :: rest =>
      if pyStartsWith first "WARNING" then
        match rest with
        | [] => .error "IndexError: list index out of range"
        | second :: _ => .ok (some second)
      else
        .ok (some (pyStrip first))

/-! ## Home Resolver: `get_r_home` -/

/-- The ambient state `get_r_home` reads: the `R_HOME` environment variable,
what spawning `R RHOME` would produce, what `r_home_from_registry()` would
return (`None` when the key or the winreg module is missing), `sys.platform`,
and `os.linesep`. -/
structure Env where
  r_home_env : Option String
  subprocess_rhome : SubprocessResult
  registry : Option String
  platform : String
  linesep : String

/-- `get_r_home()`: environment variable first, then the `R RHOME` subprocess
probe, then (on `win32` only) the registry; each step is taken only when the
value so far is falsy (`None` or the empty string). -/
def get_r_home (e : Env) : Except String (Option String) :=
  let r_home := e.r_home_env
  match
    (if pyTruthy r_home then Except.ok r_home
     else r_home_from_subprocess e.subprocess_rhome e.linesep) with
  | .error err => .error err
  | .ok r_home1 =>
    .ok (if !(pyTruthy r_home1) && e.platform == "win32" then e.registry
         else r_home1)

/-! ## Shared-Library Path Resolver: `get_rlib_path` -/

/-- `get_rlib_path(r_home, system)`.  The Python source raises
`ValueError('The system "%s" is not supported.')` for an unknown system —
note that the `%s` placeholder is never filled in (the `% system` application
is missing), so the message is that literal string. -/
def get_rlib_path (r_home : String) (system : String) : Except String String :=
  if system == "Linux" then
    .ok (osPathJoin (osPathJoin r_home "lib") "libR.so")
  else if system == "Darwin" then
    .ok (osPathJoin (osPathJoin r_home "lib") "libR.dylib")
  else
    .error "The system \"%s\" is not supported."

/-! ## Config-Flag Fetcher: `_get_r_cmd_config`

Python builds the command `(r_exec, 'CMD', 'config', about)`, runs it through
`subprocess.check_output`, splits the captured stdout on `os.linesep`, and, if
the first line starts with `'WARNING'`, emits a `warnings.warn` event and drops
that line.  The `allow_empty` parameter is accepted (documented as "allow the
output to be empty") but is never read anywhere in the function body, so no
empty-output check ever runs.  The model takes the captured stdout directly and
returns the line sequence together with the list of emitted warning events.
(The Python name carries a leading underscore, dropped here.) -/

def get_r_cmd_config (output : String) (linesep : String) (allow_empty : Bool) :
    List String × List String :=
  let out := pySplit output linesep
  match out with
  | [] => ([], [])
  | first :: rest =>
    if pyStartsWith first "WARNING" then
      (rest, ["R emitting a warning: " ++ first])
    else
      (first :: rest, [])

/-! ## `shlex.split` (posix mode, `whitespace_split=True`, no comments)

Faithful to CPython `Lib/shlex.py` `read_token` for the configuration used by
`shlex.split`: whitespace is `' \t\r\n'`; single quotes are fully literal;
inside double quotes a backslash escapes only `\` and `"` (otherwise the
backslash itself is kept); outside quotes a backslash makes the next character
literal; an unterminated quote raises `ValueError('No closing quotation')` and
a trailing backslash raises `ValueError('No escaped character')`; an empty
quoted string yields an empty token. -/

/-- Scanner mode: between tokens, inside a token, inside single or double
quotes, or after a backslash (outside quotes / inside double quotes). -/
inductive ShMode where
  | ws | word | single | double | escWord | escDouble
deriving DecidableEq

/-- Characters in `shlex.whitespace`. -/
def shWhitespace (c : Char) : Bool :=
  c == ' ' || c == '\t' || c == '\r' || c == '\n'

/-- Character-level scanner behind `shlexSplit`.  `cur` is the current token
(reversed), `quoted` records whether the current token saw a quote (so that
`''` yields an empty token), `acc` the completed tokens (reversed). -/
def shlexAux : List Char → ShMode → List Char → Bool → List (List Char) →
    Except String (List (List Char))
  | [], .ws, _, _, acc => .ok acc.reverse
  | [], .word, cur, quoted, acc =>
    .ok ((if !cur.isEmpty || quoted then cur.reverse :: acc else acc)).reverse
  | [], .single, _, _, _ => .error "ValueError: No closing quotation"
  | [], .double, _, _, _ => .error "ValueError: No closing quotation"
  | [], .escWord, _, _, _ => .error "ValueError: No escaped character"
  | [], .escDouble, _, _, _ => .error "ValueError: No escaped character"
  | c :: cs, .ws, cur, quoted, acc =>
    if shWhitespace c then shlexAux cs .ws [] false acc
    else if c == '\\' then shlexAux cs .escWord cur quoted acc
    else if c == '\'' then shlexAux cs .single cur true acc
    else if c == '"' then shlexAux cs .double cur true acc
    else shlexAux cs .word (c :: cur) quoted acc
  | c :: cs, .word, cur, quoted, acc =>
    if shWhitespace c then
      shlexAux cs .ws [] false
        (if !cur.isEmpty || quoted then cur.reverse :: acc else acc)
    else if c == '\\' then shlexAux cs .escWord cur quoted acc
    else if c == '\'' then shlexAux cs .single cur true acc
    else if c == '"' then shlexAux cs .double cur true acc
    else shlexAux cs .word (c :: cur) quoted acc
  | c :: cs, .single, cur, quoted, acc =>
    if c == '\'' then shlexAux cs .word cur quoted acc
    else shlexAux cs .single (c :: cur) quoted acc
  | c :: cs, .double, cur, quoted, acc =>
    if c == '"' then shlexAux cs .word cur quoted acc
    else if c == '\\' then shlexAux cs .escDouble cur quoted acc
    else shlexAux cs .double (c :: cur) quoted acc
  | c :: cs, .escWord, cur, quoted, acc => shlexAux cs .word (c :: cur) quoted acc
  | c :: cs, .escDouble, cur, quoted, acc =>
    if c == '\\' || c == '"' then shlexAux cs .double (c :: cur) quoted acc
    else shlexAux cs .double (c :: '\\' :: cur) quoted acc

/-- `shlex.split(s)` in posix mode with whitespace splitting. -/
def shlexSplit (s : String) : Except String (List String) :=
  (shlexAux s.data .ws [] false []).map (List.map (fun l => String.mk l))

/-! ## `argparse` fragment used by `get_r_flags`

The source builds an `ArgumentParser` with exactly three short options, each
`action='append'`: `-I`, `-L`, `-l`, and calls `parse_known_args`.  The model
reproduces the relevant `argparse` behaviour: an exact option token (`"-I"`)
consumes the following token as its value provided that token would not itself
be classified as an optional (else `SystemExit: expected one argument`); a
longer token `-Ivalue` carries its value attached, with `-I=value` splitting at
the `=` when the part before it is exactly the option string; from the first
`"--"` separator on, every token — the `"--"` itself included, which
`parse_known_args` keeps verbatim in the extras for a parser with no
positionals — is a positional, hence (this parser declaring none) an extra;
every other token is an extra, kept verbatim in order. -/

/-- The `argparse.Namespace` produced by the parser: one `append` list per
option letter, `None` when the option never occurred. -/
structure ParsedFlags where
  I : Option (List String)
  L : Option (List String)
  l : Option (List String)
deriving DecidableEq

/-- Charwise `take`, matching Python slicing `t[:n]`. -/
def strTake (s : String) (n : Nat) : String := ⟨s.data.take n⟩

/-- Charwise `drop`, matching Python slicing `t[n:]`. -/
def strDrop (s : String) (n : Nat) : String := ⟨s.data.drop n⟩

/-- `argparse`'s negative-number test `^-\d+$|^-\d*\.\d+$`. -/
def isNegativeNumberToken (v : String) : Bool :=
  if pyStartsWith v "-" then
    let r := strDrop v 1
    (!r.data.isEmpty && r.data.all Char.isDigit) ||
    (match r.data.splitOn '.' with
     | [a, b] => a.all Char.isDigit && !b.isEmpty && b.all Char.isDigit
     | _ => false)
  else false

/-- Whether `argparse._parse_optional` classifies a token as an optional
rather than a positional value: starts with `-`, is not `-` alone, is not a
negative-number literal (this parser has no numeric-looking option strings),
and contains no space. -/
def looksLikeOption (v : String) : Bool :=
  pyStartsWith v "-" && !(v == "-") && !(isNegativeNumberToken v) &&
  !(v.data.contains ' ')

/-- The value carried by a flag token longer than the 2-character option
string: `-X=v` yields `v` (explicit `=` with the option string before it),
otherwise the characters after the option string. -/
def flagValue (t : String) : String :=
  if strTake t 3 == strTake t 2 ++ "=" then strDrop t 3 else strDrop t 2

/-- `action='append'` on the field selected by the option string. -/
def appendFlagValue (pf : ParsedFlags) (flag : String) (v : String) : ParsedFlags :=
  if flag == "-I" then { pf with I := some (pf.I.getD [] ++ [v]) }
  else if flag == "-L" then { pf with L := some (pf.L.getD [] ++ [v]) }
  else { pf with l := some (pf.l.getD [] ++ [v]) }

/-- Token loop of `parse_known_args` for the three-option parser.  `extras`
accumulates unrecognised tokens in reverse. -/
def parseTokens : List String → ParsedFlags → List String →
    Except String (ParsedFlags × List String)
  | [], pf, extras => .ok (pf, extras.reverse)
  | t :: rest, pf, extras =>
    if t == "--" then
      .ok (pf, extras.reverse ++ t :: rest)
    else if t == "-I" || t == "-L" || t == "-l" then
      match rest with
      | [] => .error ("SystemExit: argument " ++ t ++ ": expected one argument")
      | v :: rest2 =>
        if looksLikeOption v then
          .error ("SystemExit: argument " ++ t ++ ": expected one argument")
        else parseTokens rest2 (appendFlagValue pf t v) extras
    else if pyStartsWith t "-I" then
      parseTokens rest (appendFlagValue pf "-I" (flagValue t)) extras
    else if pyStartsWith t "-L" then
      parseTokens rest (appendFlagValue pf "-L" (flagValue t)) extras
    else if pyStartsWith t "-l" then
      parseTokens rest (appendFlagValue pf "-l" (flagValue t)) extras
    else
      parseTokens rest pf (t :: extras)

/-- `parser.parse_known_args(res)` with the empty initial namespace. -/
def parseKnownArgs (toks : List String) : Except String (ParsedFlags × List String) :=
  parseTokens toks ⟨none, none, none⟩ []

/-! ## `get_r_flags` -/

/-- `get_r_flags(r_home, flags)`: fetch the config output (warning-stripped,
`allow_empty=False`), join the lines with `' '`, `shlex.split` the result and
run the parser.  The model starts from the captured stdout of the config tool;
the returned triple also carries the warning events of the fetch step. -/
def get_r_flags (output : String) (linesep : String) :
    Except String ((ParsedFlags × List String) × List String) :=
  let fetched := get_r_cmd_config output linesep false
  match shlexSplit (pyJoinWith " " fetched.1) with
  | .error e => .error e
  | .ok toks =>
    match parseKnownArgs toks with
    | .error e => .error e
    | .ok pr => .ok (pr, fetched.2)

/-! ## Build-Options Accumulator: `CExtensionOptions` -/

/-- `CExtensionOptions.__init__`: five empty lists. -/
structure CExtensionOptions where
  extra_link_args : List String
  extra_compile_args : List String
  include_dirs : List String
  libraries : List String
  library_dirs : List String
deriving DecidableEq

/-- The freshly constructed accumulator. -/
def CExtensionOptions.init : CExtensionOptions := ⟨[], [], [], [], []⟩

/-- `add_include(args, unknown)`: append `args.I` to `include_dirs` (warning
when `args.I is None`), always append `unknown` to `extra_compile_args`.
Returns the new state and the warning events. -/
def CExtensionOptions.add_include (self : CExtensionOptions) (args : ParsedFlags)
    (unknown : List String) : CExtensionOptions × List String :=
  match args.I with
  | none =>
    ({ self with extra_compile_args := self.extra_compile_args ++ unknown },
     ["No include specified"])
  | some ivals =>
    ({ self with
        include_dirs := self.include_dirs ++ ivals
        extra_compile_args := self.extra_compile_args ++ unknown }, [])

/-- `add_lib(args, unknown, ignore=('R',))`.  When `args.L is None` the ignore
set is applied to `args.l`; when `args.L` is present, `args.L` extends
`library_dirs` and `args.l` extends `libraries` unfiltered — and if `args.l`
is `None` there, `list.extend(None)` raises `TypeError` (the `library_dirs`
extension having already happened is discarded with the exception).  `unknown`
is appended to `extra_link_args` on every non-raising path. -/
def CExtensionOptions.add_lib (self : CExtensionOptions) (args : ParsedFlags)
    (unknown : List String) (ignore : List String) :
    Except String (CExtensionOptions × List String) :=
  match args.L with
  | none =>
    match args.l with
    | none =>
      .ok ({ self with extra_link_args := self.extra_link_args ++ unknown },
           ["No libraries as -l arguments to the compiler."])
    | some ls =>
      .ok ({ self with
              libraries := self.libraries ++ ls.filter (fun x => !(ignore.contains x))
              extra_link_args := self.extra_link_args ++ unknown }, [])
  | some dirs =>
    match args.l with
    | none => .error "TypeError: 'NoneType' object is not iterable"
    | some ls =>
      .ok ({ self with
              library_dirs := self.library_dirs ++ dirs
              libraries := self.libraries ++ ls
              extra_link_args := self.extra_link_args ++ unknown }, [])

/-! ## `CFFI_MODE` and `get_cffi_mode` -/

/-- The `CFFI_MODE` enumeration. -/
inductive CFFI_MODE where
  | API | ABI | BOTH
deriving DecidableEq

/-- The `value` attribute of each enumeration member. -/
def CFFI_MODE.value : CFFI_MODE → String
  | .API => "API"
  | .ABI => "ABI"
  | .BOTH => "BOTH"

/-- `get_cffi_mode(default=CFFI_MODE.ABI)`: read `RPY2_CFFI_MODE` (defaulting
to `''` when unset), compare its uppercasing against each member's value in
order, and fall back to `dflt`.  The environment variable is the argument. -/
def get_cffi_mode (env_val : Option String) (dflt : CFFI_MODE) : CFFI_MODE :=
  let cffi_mode := env_val.getD ""
  match [CFFI_MODE.API, CFFI_MODE.ABI, CFFI_MODE.BOTH].find?
      (fun m => pyUpper cffi_mode == m.value) with
  | some m => m
  | none => dflt

/-! ## Spec-side token classification (used to state the Flag Parser claim) -/

/-- A token the fixed grammar recognises: it begins with `-I`, `-L` or `-l`. -/
def recognizedTok (t : String) : Bool :=
  pyStartsWith t "-I" || pyStartsWith t "-L" || pyStartsWith t "-l"

/-- Values contributed to include paths: the `-I`-prefixed tokens, in order. -/
def iVals (toks : List String) : List String :=
  (toks.filter (fun t => pyStartsWith t "-I")).map flagValue

/-- Values contributed to library directories: the `-L`-prefixed tokens. -/
def dVals (toks : List String) : List String :=
  (toks.filter (fun t => pyStartsWith t "-L")).map flagValue

/-- Values contributed to library names: the `-l`-prefixed tokens. -/
def lVals (toks : List String) : List String :=
  (toks.filter (fun t => pyStartsWith t "-l")).map flagValue

/-- The passthrough tokens: everything the grammar does not recognise,
verbatim and in original order. -/
def unknownToks (toks : List String) : List String :=
  toks.filter (fun t => !(recognizedTok t))

/-- How an `action='append'` destination looks after appending a batch of
values: still `None` when the batch is empty, otherwise the previous values
(defaulting to `[]`) followed by the batch. -/
def extendOpt (o : Option (List String)) (xs : List String) : Option (List String) :=
  match xs with
  | [] => o
  | _ => some (o.getD [] ++ xs)


/-! ## Theorems -/

/-- C1: when the `R_HOME` environment variable holds a non-empty string,
`get_r_home` returns it unchanged for every subprocess and registry state;
otherwise the `R RHOME` probe is consulted, a non-empty probe result
short-circuits the registry, and a falsy probe result falls through to the
registry exactly on `win32` (elsewhere the falsy probe value is returned). -/
theorem c1_get_r_home_env_priority (e : Env) :
    (∀ v, e.r_home_env = some v → v ≠ "" → get_r_home e = Except.ok (some v))
  ∧ (pyTruthy e.r_home_env = false →
      ∀ s, r_home_from_subprocess e.subprocess_rhome e.linesep = Except.ok (some s) →
        s ≠ "" → get_r_home e = Except.ok (some s))
  ∧ (pyTruthy e.r_home_env = false →
      ∀ t, r_home_from_subprocess e.subprocess_rhome e.linesep = Except.ok t →
        pyTruthy t = false →
        get_r_home e = Except.ok (if e.platform == "win32" then e.registry else t)) := by
  refine ⟨?_, ?_, ?_⟩
  · intro v hv hne
    have hb : (v == "") = false := by
      cases h : v == "" with
      | false => rfl
      | true => exact absurd (by simpa using h) hne
    have ht : pyTruthy e.r_home_env = true := by rw [hv]; simp [pyTruthy, hb]
    simp [get_r_home, ht, hv, pyTruthy, hb]
  · intro hf s hs hne
    have hb : (s == "") = false := by
      cases h : s == "" with
      | false => rfl
      | true => exact absurd (by simpa using h) hne
    simp only [get_r_home, hf, Bool.false_eq_true, if_false, hs]
    simp [pyTruthy, hb]
  · intro hf t hs htf
    simp only [get_r_home, hf, Bool.false_eq_true, if_false, hs, htf]
    simp [htf]

/-- C1 witness: with `R_HOME=/opt/R` set, a failing subprocess, a populated
registry and `sys.platform = win32`, the environment value is returned. -/
theorem c1_get_r_home_env_priority_witness :
    get_r_home ⟨some "/opt/R", .nonZeroExit 1, some "C:\\R", "win32", "\n"⟩
      = Except.ok (some "/opt/R") :=
  (c1_get_r_home_env_priority ⟨some "/opt/R", .nonZeroExit 1, some "C:\\R", "win32", "\n"⟩).1
    "/opt/R" rfl (by decide)

/-- C2: `add_lib` applies the ignore set only in the `L = None` branch.  With
`L = None, l = ["R", "pthread"]` and ignore `["R"]` only `"pthread"` is added
to `libraries` and `library_dirs` is untouched; with `L = ["/lib"]` the
directory is added and both library names are added unfiltered; both calls
append the unknown tokens to `extra_link_args`. -/
theorem c2_add_lib_ignore_asymmetry (self : CExtensionOptions)
    (i : Option (List String)) (u : List String) :
    self.add_lib ⟨i, none, some ["R", "pthread"]⟩ u ["R"]
      = Except.ok ({ self with
          libraries := self.libraries ++ ["pthread"]
          extra_link_args := self.extra_link_args ++ u }, [])
  ∧ self.add_lib ⟨i, some ["/lib"], some ["R", "pthread"]⟩ u ["R"]
      = Except.ok ({ self with
          library_dirs := self.library_dirs ++ ["/lib"]
          libraries := self.libraries ++ ["R", "pthread"]
          extra_link_args := self.extra_link_args ++ u }, []) :=
  ⟨rfl, rfl⟩

/-- C3 counterexample: a probe whose child process launches and exits with a
non-zero status (`CalledProcessError`) is caught by the blanket
`except Exception` and demoted to `None` — the call returns `Except.ok none`,
not an error, contradicting the claim that a non-zero exit propagates as a
hard failure out of `r_home_from_subprocess` / `r_version_from_subprocess`. -/
theorem c3_nonzero_exit_demoted_counterexample :
    r_home_from_subprocess (.nonZeroExit 1) "\n" = Except.ok none
  ∧ r_version_from_subprocess (.nonZeroExit 1) "\n" = Except.ok none :=
  ⟨rfl, rfl⟩

/-- C3 (amended): in both probes every subprocess failure — failure to launch
and a launched process exiting with non-zero status alike — is demoted to the
absence value `None`; the `except Exception` clause catches
`CalledProcessError` together with the launch errors, so no subprocess
failure propagates to the caller. -/
theorem c3_probes_demote_all_failures (c : Nat) (sep : String) :
    r_home_from_subprocess .launchFailure sep = Except.ok none
  ∧ r_home_from_subprocess (.nonZeroExit c) sep = Except.ok none
  ∧ r_version_from_subprocess .launchFailure sep = Except.ok none
  ∧ r_version_from_subprocess (.nonZeroExit c) sep = Except.ok none :=
  ⟨rfl, rfl, rfl, rfl⟩

/-- C4 (code bug): config-tool output consisting of a single warning line is
empty after warning-stripping, yet `_get_r_cmd_config` returns the empty
sequence successfully for `allow_empty = False` just as for `True` — the
`allow_empty` parameter is accepted and documented but never read, and no
`EmptyConfigOutput` failure exists anywhere in the function. -/
theorem c4_allow_empty_ignored (allow_empty : Bool) :
    get_r_cmd_config "WARNING: no flags configured" "\n" allow_empty
      = ([], ["R emitting a warning: WARNING: no flags configured"]) :=
  rfl

/-- C5 (code bug): for a system outside `{Linux, Darwin}` the code does raise
`ValueError`, but its message is the literal format string
`The system "%s" is not supported.` — the `% system` application is missing,
so the message never names the offending platform.  The Linux and Darwin
paths are as claimed. -/
theorem c5_unsupported_platform_message :
    get_rlib_path "/opt/R" "FreeBSD"
      = Except.error "The system \"%s\" is not supported."
  ∧ get_rlib_path "/opt/R" "Linux" = Except.ok "/opt/R/lib/libR.so"
  ∧ get_rlib_path "/opt/R" "Darwin" = Except.ok "/opt/R/lib/libR.dylib" :=
  ⟨rfl, rfl, rfl⟩

/-- C7 counterexample: when the first line of a successful probe output starts
with `WARNING`, the second line is returned verbatim — here `" /opt/R "`,
with its surrounding whitespace intact — not trimmed as the claim states
(trimming would give `"/opt/R"`). -/
theorem c7_warning_line_untrimmed_counterexample :
    r_home_from_subprocess (.success "WARNING: x\n /opt/R ") "\n"
      = Except.ok (some " /opt/R ")
  ∧ pyStrip " /opt/R " = "/opt/R"
  ∧ (" /opt/R " : String) ≠ pyStrip " /opt/R " :=
  ⟨rfl, rfl, by decide⟩

/-- C7 (amended): on success both probes return the first output line with
surrounding whitespace trimmed; when the first line starts with `WARNING`
they instead return the next line verbatim, WITHOUT trimming (the `.strip()`
call is absent from the warning branch in both functions). -/
theorem c7_first_line_rule (out sep : String) :
    (∀ first rest, pySplit out sep = first :: rest →
      pyStartsWith first "WARNING" = false →
      r_home_from_subprocess (.success out) sep = Except.ok (some (pyStrip first)))
  ∧ (∀ first second rest, pySplit out sep = first :: second :: rest →
      pyStartsWith first "WARNING" = true →
      r_home_from_subprocess (.success out) sep = Except.ok (some second))
  ∧ (∀ first rest, pySplit (asciiIgnore out) sep = first :: rest →
      pyStartsWith first "WARNING" = false →
      r_version_from_subprocess (.success out) sep = Except.ok (some (pyStrip first)))
  ∧ (∀ first second rest, pySplit (asciiIgnore out) sep = first :: second :: rest →
      pyStartsWith first "WARNING" = true →
      r_version_from_subprocess (.success out) sep = Except.ok (some second)) := by
  refine ⟨?_, ?_, ?_, ?_⟩
  · intro first rest h1 h2
    simp [r_home_from_subprocess, check_output, h1, h2]
  · intro first second rest h1 h2
    simp [r_home_from_subprocess, check_output, h1, h2]
  · intro first rest h1 h2
    simp [r_version_from_subprocess, check_output, h1, h2]
  · intro first second rest h1 h2
    simp [r_version_from_subprocess, check_output, h1, h2]

/-- C7 witness: a warning-free output returns its first line trimmed, and a
warning-led output returns the (untrimmed) second line. -/
theorem c7_first_line_rule_witness :
    r_home_from_subprocess (.success " /opt/R \nrest") "\n"
      = Except.ok (some "/opt/R") :=
  (c7_first_line_rule " /opt/R \nrest" "\n").1 " /opt/R " ["rest"] (by decide) (by decide)

/-- C8: `add_include` accumulation is monotonic and order-preserving — two
calls with disjoint `-I` batches concatenate both batches in call order onto
`include_dirs` with no deduplication or reordering, each call appends its
unknown tokens to `extra_compile_args`, and a call with `I = None` warns,
leaves `include_dirs` unchanged, and still appends its unknown tokens. -/
theorem c8_add_include_accumulates (self : CExtensionOptions)
    (xs ys u1 u2 : List String) (L1 l1 L2 l2 : Option (List String))
    (hdisj : ∀ x ∈ xs, x ∉ ys) :
    ((self.add_include ⟨some xs, L1, l1⟩ u1).1.add_include ⟨some ys, L2, l2⟩ u2).1.include_dirs
        = self.include_dirs ++ xs ++ ys
  ∧ (self.add_include ⟨some xs, L1, l1⟩ u1).2 = []
  ∧ ((self.add_include ⟨some xs, L1, l1⟩ u1).1.add_include ⟨some ys, L2, l2⟩ u2).2 = []
  ∧ ((self.add_include ⟨some xs, L1, l1⟩ u1).1.add_include ⟨some ys, L2, l2⟩ u2).1.extra_compile_args
        = self.extra_compile_args ++ u1 ++ u2
  ∧ (∀ u L3 l3, (self.add_include ⟨none, L3, l3⟩ u).1.include_dirs = self.include_dirs
      ∧ (self.add_include ⟨none, L3, l3⟩ u).2 = ["No include specified"]
      ∧ (self.add_include ⟨none, L3, l3⟩ u).1.extra_compile_args
          = self.extra_compile_args ++ u) := by
  refine ⟨rfl, rfl, rfl, rfl, fun u L3 l3 => ⟨rfl, rfl, rfl⟩⟩

/-- C8 witness: two disjoint singleton batches accumulate in call order. -/
theorem c8_add_include_accumulates_witness :
    ((CExtensionOptions.init.add_include ⟨some ["/a"], none, none⟩ []).1.add_include
        ⟨some ["/b"], none, none⟩ []).1.include_dirs = [] ++ ["/a"] ++ ["/b"] :=
  (c8_add_include_accumulates CExtensionOptions.init ["/a"] ["/b"] [] [] none none none none
    (by decide)).1

/-- C9: `get_cffi_mode` returns the member whose `value` equals the
upper-cased variable, and the default `ABI` when the variable is unset, empty
or matches no member. -/
theorem c9_get_cffi_mode_spec :
    (∀ d, get_cffi_mode none d = d)
  ∧ (∀ d, get_cffi_mode (some "") d = d)
  ∧ (∀ s m, pyUpper s = CFFI_MODE.value m →
      get_cffi_mode (some s) CFFI_MODE.ABI = m)
  ∧ (∀ s, pyUpper s ≠ "API" → pyUpper s ≠ "ABI" → pyUpper s ≠ "BOTH" →
      get_cffi_mode (some s) CFFI_MODE.ABI = CFFI_MODE.ABI) := by
  refine ⟨fun d => rfl, fun d => rfl, ?_, ?_⟩
  · intro s m h
    cases m <;> simp [get_cffi_mode, CFFI_MODE.value] at h ⊢ <;> simp [h, CFFI_MODE.value]
  · intro s h1 h2 h3
    have b1 : (pyUpper s == "API") = false := by
      cases h : pyUpper s == "API" with
      | false => rfl
      | true => exact absurd (by simpa using h) h1
    have b2 : (pyUpper s == "ABI") = false := by
      cases h : pyUpper s == "ABI" with
      | false => rfl
      | true => exact absurd (by simpa using h) h2
    have b3 : (pyUpper s == "BOTH") = false := by
      cases h : pyUpper s == "BOTH" with
      | false => rfl
      | true => exact absurd (by simpa using h) h3
    simp [get_cffi_mode, CFFI_MODE.value, b1, b2, b3]

/-- C9 witness: `RPY2_CFFI_MODE=api` selects `API` case-insensitively, and an
unrecognised value falls back to `ABI`. -/
theorem c9_get_cffi_mode_spec_witness :
    get_cffi_mode (some "api") CFFI_MODE.ABI = CFFI_MODE.API :=
  c9_get_cffi_mode_spec.2.2.1 "api" CFFI_MODE.API (by decide)

/-- C10: when parsed flags carry `-L` values but no `-l` values, `add_lib`
raises `TypeError` (from `list.extend(None)`) instead of succeeding — its
success guarantee implicitly requires `-l` values whenever `-L` values are
present. -/
theorem c10_add_lib_none_l_typeerror (self : CExtensionOptions)
    (i : Option (List String)) (dirs u ignore : List String) :
    self.add_lib ⟨i, some dirs, none⟩ u ignore
      = Except.error "TypeError: 'NoneType' object is not iterable" :=
  rfl

/-! ### Helper lemmas for the Flag Parser claim -/

/-- Two distinct two-character prefixes cannot both be prefixes of one list. -/
theorem twoCharPrefix_disjoint (l : List Char) (a b b' : Char) (hbb : b ≠ b')
    (h : ([a, b]).isPrefixOf l = true) : ([a, b']).isPrefixOf l = false := by
  match l with
  | [] => simp [List.isPrefixOf] at h
  | [c] => simp [List.isPrefixOf] at h
  | c :: d :: tl =>
    simp [List.isPrefixOf] at h ⊢
    intro hac hbd
    exact hbb (h.2.trans hbd.symm)

/-- A token starting with `-I` does not start with `-L`. -/
theorem startsWith_I_not_L (t : String) (h : pyStartsWith t "-I" = true) :
    pyStartsWith t "-L" = false :=
  twoCharPrefix_disjoint t.data '-' 'I' 'L' (by decide) h

/-- A token starting with `-I` does not start with `-l`. -/
theorem startsWith_I_not_l (t : String) (h : pyStartsWith t "-I" = true) :
    pyStartsWith t "-l" = false :=
  twoCharPrefix_disjoint t.data '-' 'I' 'l' (by decide) h

/-- A token starting with `-L` does not start with `-l`. -/
theorem startsWith_L_not_l (t : String) (h : pyStartsWith t "-L" = true) :
    pyStartsWith t "-l" = false :=
  twoCharPrefix_disjoint t.data '-' 'L' 'l' (by decide) h

/-- Appending one more value to an `append` destination, expressed on the
batch-level view. -/
theorem extendOpt_cons (o : Option (List String)) (v : String) (xs : List String) :
    extendOpt o (v :: xs) = extendOpt (some (o.getD [] ++ [v])) xs := by
  cases xs <;> simp [extendOpt]

/-- One-step unfolding of the token loop for a head token that is neither the
`--` separator nor a bare flag. -/
theorem parseTokens_cons (t : String) (rest : List String) (pf : ParsedFlags)
    (extras : List String) (hnd : (t == "--") = false)
    (hbare : (t == "-I" || t == "-L" || t == "-l") = false) :
    parseTokens (t :: rest) pf extras =
      if pyStartsWith t "-I" then
        parseTokens rest (appendFlagValue pf "-I" (flagValue t)) extras
      else if pyStartsWith t "-L" then
        parseTokens rest (appendFlagValue pf "-L" (flagValue t)) extras
      else if pyStartsWith t "-l" then
        parseTokens rest (appendFlagValue pf "-l" (flagValue t)) extras
      else parseTokens rest pf (t :: extras) := by
  cases rest with
  | nil => simp only [parseTokens, hnd, hbare, Bool.false_eq_true, if_false]
  | cons v rest2 => simp only [parseTokens, hnd, hbare, Bool.false_eq_true, if_false]

/-- Characterization of the `argparse` token loop on warning-free inputs whose
flag tokens all carry attached values (no bare `-I`/`-L`/`-l`, no `--`
separator): each family of flag-prefixed tokens is appended to its destination
in order, and every unrecognised token is reported verbatim, in order, as an
extra.  The accumulator arguments are generalised for the induction. -/
theorem parseTokens_spec (toks : List String) : ∀ (pf : ParsedFlags) (extras : List String),
    (∀ t ∈ toks, recognizedTok t = true → 2 < t.length) →
    "--" ∉ toks →
    parseTokens toks pf extras =
      Except.ok (⟨extendOpt pf.I (iVals toks), extendOpt pf.L (dVals toks),
                  extendOpt pf.l (lVals toks)⟩,
                 extras.reverse ++ unknownToks toks) := by
  induction toks with
  | nil =>
    intro pf extras _ _
    simp [parseTokens, iVals, dVals, lVals, unknownToks, extendOpt]
  | cons t rest ih =>
    intro pf extras hgood hnd
    have hmem : t ∈ t :: rest := List.mem_cons_self t rest
    have hne2 : ¬(t = "--") := fun h => hnd (h ▸ hmem)
    have hne2' : (t == "--") = false := by simp [hne2]
    have hgood_rest : ∀ x ∈ rest, recognizedTok x = true → 2 < x.length :=
      fun x hx => hgood x (List.mem_cons_of_mem t hx)
    have hnd_rest : "--" ∉ rest := fun h => hnd (List.mem_cons_of_mem t h)
    have hbare : (t == "-I" || t == "-L" || t == "-l") = false := by
      by_cases h1 : t = "-I"
      · subst h1
        exact absurd (hgood _ hmem (by decide)) (by decide)
      · by_cases h2 : t = "-L"
        · subst h2
          exact absurd (hgood _ hmem (by decide)) (by decide)
        · by_cases h3 : t = "-l"
          · subst h3
            exact absurd (hgood _ hmem (by decide)) (by decide)
          · simp [h1, h2, h3]
    rw [parseTokens_cons t rest pf extras hne2' hbare]
    cases hI : pyStartsWith t "-I" with
    | true =>
      have hL : pyStartsWith t "-L" = false := startsWith_I_not_L t hI
      have hl : pyStartsWith t "-l" = false := startsWith_I_not_l t hI
      have hrec : recognizedTok t = true := by simp [recognizedTok, hI]
      simp only [eq_self_iff_true, if_true]
      rw [ih (appendFlagValue pf "-I" (flagValue t)) extras hgood_rest hnd_rest]
      simp [appendFlagValue, iVals, dVals, lVals, unknownToks, hI, hL, hl, hrec,
        extendOpt_cons]
    | false =>
      cases hL : pyStartsWith t "-L" with
      | true =>
        have hl : pyStartsWith t "-l" = false := startsWith_L_not_l t hL
        have hrec : recognizedTok t = true := by simp [recognizedTok, hL]
        simp only [Bool.false_eq_true, if_false, eq_self_iff_true, if_true]
        rw [ih (appendFlagValue pf "-L" (flagValue t)) extras hgood_rest hnd_rest]
        simp [appendFlagValue, iVals, dVals, lVals, unknownToks, hI, hL, hl, hrec,
          extendOpt_cons]
      | false =>
        cases hl : pyStartsWith t "-l" with
        | true =>
          have hrec : recognizedTok t = true := by simp [recognizedTok, hl]
          simp only [Bool.false_eq_true, if_false, eq_self_iff_true, if_true]
          rw [ih (appendFlagValue pf "-l" (flagValue t)) extras hgood_rest hnd_rest]
          simp [appendFlagValue, iVals, dVals, lVals, unknownToks, hI, hL, hl, hrec,
            extendOpt_cons]
        | false =>
          have hrec : recognizedTok t = false := by simp [recognizedTok, hI, hL, hl]
          simp only [Bool.false_eq_true, if_false]
          rw [ih pf (t :: extras) hgood_rest hnd_rest]
          simp [iVals, dVals, lVals, unknownToks, hI, hL, hl, hrec, List.append_assoc]

/-- C6 counterexample: the universal classification claim fails on the
unrestricted token language.  A bare `-I` consumes the following token `"/x"`
as its value, so `"/x"` — a token beginning with none of the three flag
prefixes, which the claim requires to be collected verbatim as an unknown
argument — appears among the include paths and the unknown-argument list is
empty; and after a `"--"` separator the `-I`-prefixed token `"-I/x"` is not
classified as an include path at all but passed through as an extra. -/
theorem c6_flag_classification_counterexample :
    parseKnownArgs ["-I", "/x"]
      = Except.ok (⟨some ["/x"], none, none⟩, ([] : List String))
  ∧ unknownToks ["-I", "/x"] = ["/x"]
  ∧ parseKnownArgs ["--", "-I/x"]
      = Except.ok (⟨none, none, none⟩, ["--", "-I/x"])
  ∧ iVals ["--", "-I/x"] = ["/x"] :=
  ⟨rfl, rfl, rfl, rfl⟩

/-- C6 (amended): for every config-tool output whose shell-split tokens carry
their flag values attached (no bare `-I`/`-L`/`-l` token) and contain no
`"--"` separator, the flag parser classifies `-I`-prefixed tokens as include
paths, `-L`-prefixed tokens as library directories and `-l`-prefixed tokens as
library names, in original order, collecting every other token verbatim and in
order as an unknown argument, and never fails on unrecognised tokens; and the
concrete pipeline run on the output
`"WARNING: foo"` / `"-I/usr/include -I/opt/inc"` yields include paths
`["/usr/include", "/opt/inc"]`, no unknown tokens, and exactly one warning
event.  (Outside that scope a bare flag token consumes its successor as a
value or fails with "expected one argument", and tokens from a `"--"` on —
the separator itself included — are passed through unclassified.) -/
theorem c6_flag_classification :
    (∀ toks : List String,
      (∀ t ∈ toks, recognizedTok t = true → 2 < t.length) →
      "--" ∉ toks →
      parseKnownArgs toks =
        Except.ok (⟨extendOpt none (iVals toks), extendOpt none (dVals toks),
                    extendOpt none (lVals toks)⟩, unknownToks toks))
  ∧ get_r_flags "WARNING: foo\n-I/usr/include -I/opt/inc" "\n"
      = Except.ok ((⟨some ["/usr/include", "/opt/inc"], none, none⟩, []),
                   ["R emitting a warning: WARNING: foo"]) := by
  constructor
  · intro toks hgood hnd
    have h := parseTokens_spec toks ⟨none, none, none⟩ [] hgood hnd
    simpa using h
  · rfl

/-- C6 witness: a mixed token list is classified as stated. -/
theorem c6_flag_classification_witness :
    parseKnownArgs ["-I/x", "-lR", "foo", "-L/lib"]
      = Except.ok (⟨some ["/x"], some ["/lib"], some ["R"]⟩, ["foo"]) :=
  c6_flag_classification.1 ["-I/x", "-lR", "foo", "-L/lib"] (by decide) (by decide)
